import Mathlib

/-!
Verification development for the Aura asset-state system.

Shallow embedding of the components under `src/aura` that the frozen claims
refer to: the change detector (`aura/core/change_detector.py`), the sensor
driver (`aura/sensors/base.py`), the record store (`aura/core/aav.py`), the
validator (`aura/guardian/validator.py`), the repairer
(`aura/guardian/repairer.py`) and the distributed guardian
(`aura/guardian/distributed.py`).

Machine reals are modelled by `Rat` (the Python sources only ever compare,
add, multiply and divide metric values; no claim depends on float rounding),
Python dicts by association lists, and the clock by an explicit `now`
parameter threaded through the stateful operations.
-/

namespace Aura

/-- Heads-match test on character lists: the pattern is an initial segment
of the text. -/
def matchHead : List Char → List Char → Bool
  | [], _ => true
  | _ :: _, [] => false
  | p :: ps, c :: cs => p = c && matchHead ps cs

/-- Occurrence test on character lists: the pattern occurs somewhere in the
text. -/
def hasSub (text : List Char) (pat : List Char) : Bool :=
  match text with
  | [] => matchHead pat []
  | c :: rest => matchHead pat (c :: rest) || hasSub rest pat

/-- Substring test, modelling Python's `pat in s`. -/
def containsSub (s pat : String) : Bool :=
  hasSub s.data pat.data

/-- Leading-match test, modelling Python's `s.startswith(pat)`. -/
def strStartsWith (s pat : String) : Bool :=
  matchHead pat.data s.data

/-- Lower-casing, modelling Python's `str.lower()` on ASCII metric names. -/
def strToLower (s : String) : String :=
  ⟨s.data.map Char.toLower⟩

/-- Lookup in an association list, modelling Python `d[k]` / `d.get(k)`. -/
def getA {α : Type} (l : List (String × α)) (k : String) : Option α :=
  match l with
  | [] => none
  | (k', v) :: rest => if k' = k then some v else getA rest k

/-- Key-membership test, modelling Python `k in d`. -/
def hasA {α : Type} (l : List (String × α)) (k : String) : Bool :=
  (getA l k).isSome

/-- Update-or-insert, modelling Python `d[k] = v`: replaces the first binding
of `k`, appends a new binding when `k` is absent. -/
def setA {α : Type} (l : List (String × α)) (k : String) (v : α) :
    List (String × α) :=
  match l with
  | [] => [(k, v)]
  | (k', v') :: rest =>
      if k' = k then (k', v) :: rest else (k', v') :: setA rest k v

/-- Values stored in records and fed to the change detector: Python strings,
numbers (`int`/`float`, modelled exactly by `Rat`), booleans, lists of
strings (asset tags) and `None`.  Python's coercion of `bool` to `int` in
comparisons is not modelled; no claim exercises it. -/
inductive Value where
  | str (s : String)
  | num (q : Rat)
  | bool (b : Bool)
  | arrStr (xs : List String)
  | pyNone
deriving DecidableEq, Repr

/-- Numeric test, modelling `isinstance(v, (int, float))`. -/
def Value.isNum : Value → Bool
  | .num _ => true
  | _ => false

/-- Numeric projection: `some q` when the value is a number. -/
def Value.toNum : Value → Option Rat
  | .num q => some q
  | _ => none

/-! ## Change detector (`aura/core/change_detector.py`) -/

/-- Thresholds of `ChangeThreshold` with the source's defaults. -/
structure ChangeThreshold where
  cpu_percent : Rat := 5.0
  memory_percent : Rat := 5.0
  storage_percent : Rat := 1.0
  network_connections : Rat := 10
  response_time_multiplier : Rat := 2.0
deriving DecidableEq, Repr

/-- Bounded history of `MetricHistory`: two deques with `maxlen=60`. -/
structure MetricHistory where
  values : List Rat := []
  timestamps : List Rat := []
deriving DecidableEq, Repr

/-- Appending to a deque with `maxlen=60`: the oldest element is dropped
once the length would exceed 60. -/
def dequeAdd60 (l : List Rat) (v : Rat) : List Rat :=
  let l' := l ++ [v]
  if l'.length > 60 then l'.drop (l'.length - 60) else l'

/-- Embeds `MetricHistory.add`. -/
def MetricHistory.add (h : MetricHistory) (v now : Rat) : MetricHistory :=
  { values := dequeAdd60 h.values v, timestamps := dequeAdd60 h.timestamps now }

/-- Mutable state of a `ChangeDetector` instance. -/
structure DetectorState where
  thresholds : ChangeThreshold := {}
  previous_values : List (String × Value) := []
  history : List (String × MetricHistory) := []
  last_update_time : List (String × Rat) := []
deriving DecidableEq, Repr

namespace ChangeDetector

/-- Embeds `ChangeDetector._record_value`: stores the value and timestamp
and, for numeric values, appends to the (lazily created) bounded history. -/
def recordValue (st : DetectorState) (now : Rat) (name : String)
    (v : Value) : DetectorState :=
  let st := { st with
    previous_values := setA st.previous_values name v
    last_update_time := setA st.last_update_time name now }
  match v.toNum with
  | some q =>
      let h := (getA st.history name).getD {}
      { st with history := setA st.history name (h.add q now) }
  | none => st

/-- Embeds `ChangeDetector._is_significant_change`.  Returns `none` where the
Python code would raise a `TypeError` (arithmetic on a non-numeric operand),
`some b` otherwise. -/
def isSignificantChange (th : ChangeThreshold) (name : String)
    (previous current : Value) : Option Bool :=
  if previous = .pyNone ∨ current = .pyNone then
    some (decide (previous ≠ current))
  else
    let nl := strToLower name
    if containsSub nl "cpu" ∧ containsSub nl "percent" then do
      let p ← previous.toNum; let c ← current.toNum
      pure (|c - p| ≥ th.cpu_percent)
    else if containsSub nl "memory" ∧ containsSub nl "percent" then do
      let p ← previous.toNum; let c ← current.toNum
      pure (|c - p| ≥ th.memory_percent)
    else if (containsSub nl "storage" ∨ containsSub nl "disk") ∧
        containsSub nl "percent" then do
      let p ← previous.toNum; let c ← current.toNum
      pure (|c - p| ≥ th.storage_percent)
    else if containsSub nl "connection" then do
      let p ← previous.toNum; let c ← current.toNum
      pure (|c - p| ≥ th.network_connections)
    else if containsSub nl "response_time" ∨ containsSub nl "latency" then do
      let p ← previous.toNum; let c ← current.toNum
      if p = 0 then pure (c > 0)
      else pure (c / p ≥ th.response_time_multiplier)
    else if containsSub nl "status" ∨ containsSub nl "state" then
      some (decide (previous ≠ current))
    else if containsSub nl "health" then
      some (decide (previous ≠ current))
    else if ¬ current.isNum then
      some (decide (previous ≠ current))
    else do
      let p ← previous.toNum; let c ← current.toNum
      if p = 0 then pure (c ≠ 0)
      else pure (|(c - p) / p * 100| ≥ 10.0)

/-- Embeds `ChangeDetector._should_update_by_time`. -/
def shouldUpdateByTime (st : DetectorState) (now : Rat) (name : String)
    (maxAge : Rat) : Bool :=
  match getA st.last_update_time name with
  | none => true
  | some t => now - t ≥ maxAge

/-- Embeds `ChangeDetector.should_update`, threading the detector state and
the clock explicitly.  `none` models an uncaught `TypeError` from
`_is_significant_change`; `some (b, st')` is the returned boolean together
with the state after the call. -/
def shouldUpdate (st : DetectorState) (now : Rat) (name : String)
    (v : Value) (force : Bool) : Option (Bool × DetectorState) :=
  if force then
    some (true, st)
  else
    match getA st.previous_values name with
    | none => some (true, recordValue st now name v)
    | some previous =>
        match isSignificantChange st.thresholds name previous v with
        | none => none
        | some sig =>
            if sig then some (true, recordValue st now name v)
            else if shouldUpdateByTime st now name 300 then
              some (true, recordValue st now name v)
            else some (false, st)

end ChangeDetector

/-! ## Sensor driver (`aura/sensors/base.py`) -/

/-- Operational status of a sensor (`SensorStatus` string enum). -/
inductive SensorStatus where
  | initializing
  | healthy
  | degraded
  | unhealthy
  | stopped
deriving DecidableEq, Repr

/-- Adaptive-sampling state of a `BaseSensor`: the fields read and written by
`_on_success` and `_on_failure`.  `BaseSensor.__init__` fixes
`min_interval = 0.1`, `max_interval = 5.0`, `max_failures = 5`. -/
structure SensorState where
  sampling_interval : Rat
  min_interval : Rat := 0.1
  max_interval : Rat := 5.0
  status : SensorStatus := .initializing
  consecutive_failures : Nat := 0
  max_failures : Nat := 5
deriving DecidableEq, Repr

namespace BaseSensor

/-- Embeds `BaseSensor._on_success`: resets the failure counter, shrinks the
interval by 5% (floored at `min_interval`), and recovers a DEGRADED sensor
to HEALTHY. -/
def onSuccess (s : SensorState) : SensorState :=
  { s with
    consecutive_failures := 0
    sampling_interval := max s.min_interval (s.sampling_interval * 0.95)
    status := if s.status = .degraded then .healthy else s.status }

/-- Embeds `BaseSensor._on_failure`: increments the failure counter, widens
the interval by `1.5 ** min(failures, 5)` (capped at `max_interval`), and
escalates status to UNHEALTHY at `max_failures` failures, DEGRADED at 3. -/
def onFailure (s : SensorState) : SensorState :=
  let f := s.consecutive_failures + 1
  let backoff : Rat := 1.5 ^ (min f 5)
  { s with
    consecutive_failures := f
    sampling_interval := min s.max_interval (s.sampling_interval * backoff)
    status :=
      if f ≥ s.max_failures then .unhealthy
      else if f ≥ 3 then .degraded
      else s.status }

end BaseSensor

/-! ## Distributed guardian (`aura/guardian/distributed.py`) -/

namespace DistributedGuardian

/-- Embeds `DistributedGuardian.should_monitor`.  The hash is
`int(hashlib.md5(asset_id.encode()).hexdigest(), 16)`; `md5` is an external
library primitive, so the embedding is parameterised by the hash function —
the sharding logic itself is `hash(asset_id) % total_shards == shard_id`. -/
def shouldMonitor (hash : String → Nat) (totalShards shardId : Nat)
    (assetId : String) : Bool :=
  hash assetId % totalShards == shardId

/-- Embeds the filtering core of `DistributedGuardian.discover_my_assets`:
from the asset ids present in the assets directory, keep those this shard
should monitor. -/
def discoverMyAssets (hash : String → Nat) (totalShards shardId : Nat)
    (assetIds : List String) : List String :=
  assetIds.filter (shouldMonitor hash totalShards shardId)

/-- Embeds the status classification of `DistributedGuardian.get_health`:
`if repair_failures > 10: "degraded" elif repair_failures > 50: "unhealthy"`
applied to a default of `"healthy"`, exactly as written in the source. -/
def healthStatus (repairFailures : Nat) : String :=
  if repairFailures > 10 then "degraded"
  else if repairFailures > 50 then "unhealthy"
  else "healthy"

end DistributedGuardian

/-! ## Record store (`aura/core/aav.py`)

A record document is a two-level table, matching the `.aav` TOML layout the
store reads and writes: top-level section names bound to tables of
key-value pairs. -/

/-- One section of a record: a table of keys and values. -/
abbrev Section := List (String × Value)

/-- A parsed record document: top-level sections. -/
abbrev Doc := List (String × Section)

/-- Error taxonomy relevant to the claims (`aura/core/exceptions.py`):
`AAVFileError` and `AAVValidationError` are sibling subclasses of
`AuraError`; neither is a subclass of the other. -/
inductive AuraErr where
  | fileError (msg : String)
  | validationError (msg : String)
deriving DecidableEq, Repr

/-- Message carried by an error, as interpolated by `f"... {e}"`. -/
def AuraErr.msg : AuraErr → String
  | .fileError m => m
  | .validationError m => m

/-- True exactly for `AAVFileError`. -/
def AuraErr.isFileError : AuraErr → Bool
  | .fileError _ => true
  | _ => false

/-- True exactly for `AAVValidationError`. -/
def AuraErr.isValidationError : AuraErr → Bool
  | .validationError _ => true
  | _ => false

namespace AAVFile

/-- `AAVFile.REQUIRED_SECTIONS`. -/
def REQUIRED_SECTIONS : List String :=
  ["metadata", "asset", "compute", "memory", "storage", "network", "services"]

/-- The required sections absent from a document
(`[s for s in REQUIRED_SECTIONS if s not in data]`). -/
def missingSections (data : Doc) : List String :=
  REQUIRED_SECTIONS.filter (fun s => ¬ hasA data s)

/-- Success of `AAVMetadata(**metadata)`: the only field without a default is
`asset_id`, so construction succeeds iff `asset_id` is present.  (Pydantic's
string coercion and ISO-timestamp parsing are library behaviour outside this
repository; no claim feeds the constructor a present-but-unparseable
timestamp.) -/
def pydMetadataOk (m : Section) : Bool :=
  hasA m "asset_id"

/-- Success of `AssetInfo(**asset)`: the fields without defaults are `id` and
`type`. -/
def pydAssetOk (a : Section) : Bool :=
  hasA a "id" ∧ hasA a "type"

/-- Per-section field loop of `AAVFile.validate`: each sensor section that
is present must carry `last_updated` and `sensor_status`. -/
def sectionFieldsCheck (data : Doc) : List String → Except AuraErr Unit
  | [] => .ok ()
  | s :: rest =>
      match getA data s with
      | some sec =>
          if ¬ hasA sec "last_updated" then
            .error (.validationError ("Section " ++ s ++ " missing last_updated"))
          else if ¬ hasA sec "sensor_status" then
            .error (.validationError ("Section " ++ s ++ " missing sensor_status"))
          else sectionFieldsCheck data rest
      | none => sectionFieldsCheck data rest

/-- Success of the metadata construction step of `AAVFile.validate`
(`data['metadata']` raising `KeyError` when absent is likewise caught and
re-raised as `AAVValidationError`). -/
def metadataStepOk (data : Doc) : Bool :=
  match getA data "metadata" with
  | some m => pydMetadataOk m
  | none => false

/-- Success of the asset-info construction step of `AAVFile.validate`. -/
def assetStepOk (data : Doc) : Bool :=
  match getA data "asset" with
  | some a => pydAssetOk a
  | none => false

/-- Embeds `AAVFile.validate`: missing required sections, then metadata and
asset construction, then `last_updated`/`sensor_status` presence in every
sensor section, raising `AAVValidationError` at the first violation. -/
def validate (data : Doc) : Except AuraErr Unit :=
  if missingSections data ≠ [] then
    .error (.validationError
      ("Missing required sections: " ++
        String.intercalate ", " (missingSections data)))
  else if ¬ metadataStepOk data then
    .error (.validationError "Invalid metadata")
  else if ¬ assetStepOk data then
    .error (.validationError "Invalid asset info")
  else
    sectionFieldsCheck data ["compute", "memory", "storage", "network", "services"]

/-- On-disk file content as observed by the code: the outcome of
`toml.load` on the content, the outcome of `toml.loads` on the content
after `_apply_toml_fixes`, and the two regex extractions of
`_repair_partial_data`.  An arbitrary (possibly corrupted) byte string is
characterised by these four observations — they are everything the record
store, validator and repairer compute from the raw text. -/
structure RawContent where
  parse : Option Doc
  parseFixed : Option Doc
  rawAssetId : Option String
  rawType : Option String
deriving DecidableEq, Repr

/-- Content of a file the system itself serialised from document `d` with
`toml.dump`: it parses back to `d`.  The serialisations arising in this
development contain no trailing commas before brackets and no bare
`True`/`False`/`None` tokens, so the textual fixes leave them intact, and
the `asset_id`/`type` regexes recover the serialised string fields. -/
def RawContent.ofDoc (d : Doc) : RawContent where
  parse := some d
  parseFixed := some d
  rawAssetId :=
    match getA d "metadata" with
    | some m => match getA m "asset_id" with
      | some (.str s) => some s
      | _ => none
    | none => none
  rawType :=
    match getA d "asset" with
    | some a => match getA a "type" with
      | some (.str s) => some s
      | _ => none
    | none => none

/-- File-system state seen by one `AAVFile` handler: the primary `.aav` file
and its `.aav.backup` sibling (`none` = file absent). -/
structure FS where
  main : Option RawContent
  backup : Option RawContent
deriving DecidableEq, Repr

/-- Embeds `AAVFile.read`: absent file and parse failure both surface as
`AAVFileError`. -/
def read (fs : FS) : Except AuraErr Doc :=
  match fs.main with
  | none => .error (.fileError "AAV file not found")
  | some r =>
      match r.parse with
      | some d => .ok d
      | none => .error (.fileError "Invalid TOML")

/-- Embeds the timestamp step of `AAVFile.write`: ensure a `metadata` table
exists, then set `metadata.last_updated` to the formatted current instant. -/
def stampMetadata (data : Doc) (now : String) : Doc :=
  let data := if hasA data "metadata" then data else setA data "metadata" []
  let m := (getA data "metadata").getD []
  setA data "metadata" (setA m "last_updated" (.str now))

/-- Embeds `AAVFile.write`.  Returns the outcome together with the
file-system state after the call: validation runs first; only then is the
backup copied, the timestamp rewritten and the temp file written and renamed
over the primary.  A validation failure escapes the method's `except`
clause re-wrapped as `AAVFileError`, leaving both files untouched.
Serialisation and rename themselves are modelled as succeeding (the claims
all assume a writable path). -/
def write (fs : FS) (now : String) (data : Doc) (createBackup : Bool) :
    Except AuraErr Unit × FS :=
  match validate data with
  | .error e => (.error (.fileError ("Failed to write: " ++ e.msg)), fs)
  | .ok _ =>
      let fs := if createBackup ∧ fs.main.isSome then
          { fs with backup := fs.main } else fs
      let data := stampMetadata data now
      (.ok (), { fs with main := some (RawContent.ofDoc data) })

/-- Embeds the merge step of `AAVFile.update_section`: start the section if
absent, then `dict.update` the patch into it. -/
def mergeSection (current : Doc) (sec : String) (patch : Section) : Doc :=
  let current := if hasA current sec then current else setA current sec []
  let old := (getA current sec).getD []
  setA current sec (patch.foldl (fun acc kv => setA acc kv.1 kv.2) old)

/-- Embeds `AAVFile.update_section`: read the current document (an empty one
when the file is absent), merge the patch into the named section, write the
result back; any failure is re-raised as
`AAVFileError("Failed to update section ...")`. -/
def updateSection (fs : FS) (now : String) (sec : String) (patch : Section) :
    Except AuraErr Unit × FS :=
  match (if fs.main.isSome then read fs else .ok []) with
  | .error e =>
      (.error (.fileError ("Failed to update section " ++ sec ++ ": " ++ e.msg)), fs)
  | .ok current =>
      match write fs now (mergeSection current sec patch) true with
      | (.error e, fs') =>
          (.error (.fileError ("Failed to update section " ++ sec ++ ": " ++ e.msg)),
           fs')
      | (.ok _, fs') => (.ok (), fs')

/-- Skeleton document built by `AAVFile.create_empty`. -/
def createEmptyDoc (assetId assetType : String) (assetName : Option String)
    (now : String) : Doc :=
  let sensorSec : Section :=
    [("last_updated", .str now), ("sensor_status", .str "initializing")]
  [("metadata",
    [("format_version", .str "2.0.0"), ("asset_id", .str assetId),
     ("last_updated", .str now), ("schema_version", .str "2.0")]),
   ("asset",
    [("id", .str assetId), ("type", .str assetType),
     ("name", .str (assetName.getD assetId)), ("status", .str "unknown"),
     ("tags", .arrStr [])]),
   ("compute", sensorSec), ("memory", sensorSec), ("storage", sensorSec),
   ("network", sensorSec), ("services", sensorSec)]

/-- Embeds `AAVFile.create_empty`: build the skeleton and write it with no
backup. -/
def createEmpty (fs : FS) (now : String) (assetId assetType : String)
    (assetName : Option String) : Except AuraErr Unit × FS :=
  write fs now (createEmptyDoc assetId assetType assetName now) false

end AAVFile

/-! ## Validator (`aura/guardian/validator.py`) -/

/-- Outcome of `AAVValidator.validate`. -/
structure ValidationResult where
  valid : Bool
  errors : List String
  warnings : List String
deriving DecidableEq, Repr

/-- Fresh result, `ValidationResult(valid=True, ...)`. -/
def ValidationResult.init : ValidationResult :=
  { valid := true, errors := [], warnings := [] }

/-- Record a fatal finding: `result.valid = False; result.errors.append(e)`. -/
def ValidationResult.addError (r : ValidationResult) (e : String) :
    ValidationResult :=
  { r with valid := false, errors := r.errors ++ [e] }

/-- Record a non-fatal finding: `result.warnings.append(w)`. -/
def ValidationResult.addWarning (r : ValidationResult) (w : String) :
    ValidationResult :=
  { r with warnings := r.warnings ++ [w] }

namespace AAVValidator

/-- The five sensor sections inspected by checks 7 and 8. -/
def sensorSections : List String :=
  ["compute", "memory", "storage", "network", "services"]

/-- Embeds `_validate_required_sections` (check 3). -/
def checkRequiredSections (d : Doc) (r : ValidationResult) : ValidationResult :=
  let missing := AAVFile.REQUIRED_SECTIONS.filter (fun s => ¬ hasA d s)
  if missing ≠ [] then
    r.addError ("Missing required sections: " ++ String.intercalate ", " missing)
  else r

/-- Embeds `_validate_metadata` (check 4).  `none` models the uncaught
`AttributeError` the source raises when `format_version` is present but not
a string (`version.startswith` on a non-string). -/
def checkMetadata (d : Doc) (r : ValidationResult) : Option ValidationResult :=
  match getA d "metadata" with
  | none => some r
  | some m =>
      let missing := ["format_version", "asset_id", "last_updated"].filter
        (fun f => ¬ hasA m f)
      let r := if missing ≠ [] then
          r.addError ("Missing metadata fields: " ++ String.intercalate ", " missing)
        else r
      match getA m "format_version" with
      | none => some r
      | some (.str v) =>
          if ¬ strStartsWith v "2." then
            some (r.addWarning ("Unexpected format version: " ++ v))
          else some r
      | some _ => none

/-- Embeds `_validate_asset_info` (check 5).  Note that a missing `id`,
`type` or `status` field sets `result.valid = False`. -/
def checkAssetInfo (d : Doc) (r : ValidationResult) : ValidationResult :=
  match getA d "asset" with
  | none => r
  | some a =>
      let missing := ["id", "type", "status"].filter (fun f => ¬ hasA a f)
      let r := if missing ≠ [] then
          r.addError ("Missing asset fields: " ++ String.intercalate ", " missing)
        else r
      match getA a "type" with
      | none => r
      | some t =>
          let validTypes : List Value :=
            [.str "container", .str "vm", .str "pod", .str "machine",
             .str "database", .str "service"]
          if t ∉ validTypes then r.addWarning "Unknown asset type" else r

/-- Embeds `_validate_freshness` (check 6).  `ageOf` models the external
clock and ISO-timestamp parse: `none` is a parse failure (every exception in
the check's `try` body becomes a warning). -/
def checkFreshness (ageOf : Value → Option Rat) (maxAge : Rat) (d : Doc)
    (r : ValidationResult) : ValidationResult :=
  match getA d "metadata" with
  | none => r
  | some m =>
      match getA m "last_updated" with
      | none => r
      | some v =>
          match ageOf v with
          | none => r.addWarning "Could not validate freshness"
          | some age => if age > maxAge then r.addWarning "File is stale" else r

/-- Loop of `_validate_sensor_sections` (check 7) over the given section
names. -/
def checkSensorSectionsFrom (d : Doc) :
    List String → ValidationResult → ValidationResult
  | [], r => r
  | s :: rest, r =>
      match getA d s with
      | none => checkSensorSectionsFrom d rest r
      | some sec =>
          let r := if ¬ hasA sec "last_updated" then
              r.addWarning ("Section " ++ s ++ " missing last_updated")
            else r
          let r := if ¬ hasA sec "sensor_status" then
              r.addWarning ("Section " ++ s ++ " missing sensor_status")
            else r
          checkSensorSectionsFrom d rest r

/-- Embeds `_validate_sensor_sections` (check 7). -/
def checkSensorSections (d : Doc) (r : ValidationResult) : ValidationResult :=
  checkSensorSectionsFrom d sensorSections r

/-- Loop of `_validate_sensor_health` (check 8) over the given section
names. -/
def checkSensorHealthFrom (d : Doc) :
    List String → ValidationResult → ValidationResult
  | [], r => r
  | s :: rest, r =>
      match getA d s with
      | none => checkSensorHealthFrom d rest r
      | some sec =>
          match getA sec "sensor_status" with
          | none => checkSensorHealthFrom d rest r
          | some v =>
              let r :=
                if v = .str "unhealthy" then
                  r.addWarning ("Sensor " ++ s ++ " is unhealthy")
                else if v = .str "degraded" then
                  r.addWarning ("Sensor " ++ s ++ " is degraded")
                else if v ∉ ([.str "healthy", .str "initializing", .str "stopped"] :
                    List Value) then
                  r.addWarning ("Unknown sensor status for " ++ s)
                else r
              checkSensorHealthFrom d rest r

/-- Embeds `_validate_sensor_health` (check 8). -/
def checkSensorHealth (d : Doc) (r : ValidationResult) : ValidationResult :=
  checkSensorHealthFrom d sensorSections r

/-- Checks 3 through 8 of `AAVValidator.validate`, run in the source's order
on a successfully parsed document. -/
def validateDoc (ageOf : Value → Option Rat) (maxAge : Rat) (d : Doc) :
    Option ValidationResult := do
  let r := ValidationResult.init
  let r := checkRequiredSections d r
  let r ← checkMetadata d r
  let r := checkAssetInfo d r
  let r := checkFreshness ageOf maxAge d r
  let r := checkSensorSections d r
  let r := checkSensorHealth d r
  pure r

/-- Embeds `AAVValidator.validate` on a file: existence/readability
(check 1) and TOML syntax (check 2) short-circuit with `valid=false`; the
remaining checks run on the parsed document. -/
def validateFile (main : Option AAVFile.RawContent)
    (ageOf : Value → Option Rat) (maxAge : Rat) : Option ValidationResult :=
  match main with
  | none => some (ValidationResult.init.addError "File does not exist")
  | some c =>
      match c.parse with
      | none => some (ValidationResult.init.addError "Invalid TOML syntax")
      | some d => validateDoc ageOf maxAge d

end AAVValidator

/-! ## Repairer (`aura/guardian/repairer.py`) -/

/-- Outcome of `AAVRepairer.repair`. -/
structure RepairResult where
  success : Bool
  repairStrategy : String
  message : String
  originalError : Option String
deriving DecidableEq, Repr

namespace AAVRepairer

/-- Emergency skeleton built by `_repair_emergency_rebuild`: every section's
`sensor_status` is `"restarting"` and the metadata is flagged
`emergency_rebuild = true`.  The asset id is the file name stem. -/
def emergencyDoc (stem now : String) : Doc :=
  let sensorSec : Section :=
    [("last_updated", .str now), ("sensor_status", .str "restarting")]
  [("metadata",
    [("format_version", .str "2.0.0"), ("asset_id", .str stem),
     ("last_updated", .str now), ("schema_version", .str "2.0"),
     ("emergency_rebuild", .bool true),
     ("rebuild_reason",
      .str "Complete file corruption - all repair attempts failed")]),
   ("asset",
    [("id", .str stem), ("type", .str "unknown"), ("name", .str stem),
     ("status", .str "unknown"), ("tags", .arrStr [])]),
   ("compute", sensorSec), ("memory", sensorSec), ("storage", sensorSec),
   ("network", sensorSec), ("services", sensorSec)]

/-- Embeds `_repair_emergency_rebuild`: dumps the emergency skeleton
directly over the primary file (no validation, no backup). -/
def emergencyRebuild (fs : AAVFile.FS) (now stem : String) :
    RepairResult × AAVFile.FS :=
  ({ success := true, repairStrategy := "emergency_rebuild"
     message := "Created emergency skeleton - sensors will repopulate data"
     originalError := none },
   { fs with main := some (AAVFile.RawContent.ofDoc (emergencyDoc stem now)) })

/-- Embeds `_repair_partial_data`, falling through to the emergency rebuild
(as the strategy loop in `repair` does) when its `create_empty` write
fails: extract `asset_id` and `type` from the damaged text (defaulting to
`"unknown"`) and write a fresh minimal skeleton. -/
def partialThenEmergency (r : AAVFile.RawContent) (fs : AAVFile.FS)
    (now stem : String) : RepairResult × AAVFile.FS :=
  let assetId := r.rawAssetId.getD "unknown"
  let assetType := r.rawType.getD "unknown"
  match AAVFile.createEmpty fs now assetId assetType none with
  | (.ok _, fs') =>
      ({ success := true, repairStrategy := "partial_recovery"
         message := "Recovered partial data (asset_id: " ++ assetId ++ ")"
         originalError := none }, fs')
  | (.error _, _) => emergencyRebuild fs now stem

/-- Embeds `AAVRepairer.repair`: strategies tried in order, stopping at the
first success.  Strategy 1 rewrites the file with the textually fixed
content when that content parses; strategy 2 copies a parseable backup over
the primary; strategy 3 writes a recovered skeleton; strategy 4 always
succeeds.  `stem` is `file_path.stem`. -/
def repair (fs : AAVFile.FS) (now stem : String) :
    RepairResult × AAVFile.FS :=
  match fs.main with
  | none =>
      ({ success := false, repairStrategy := "none"
         message := "File does not exist", originalError := none }, fs)
  | some r =>
      match r.parseFixed with
      | some d =>
          ({ success := true, repairStrategy := "toml_syntax_fix"
             message := "Fixed TOML syntax errors", originalError := none },
           { fs with main := some (AAVFile.RawContent.ofDoc d) })
      | none =>
          match fs.backup with
          | some b =>
              if b.parse.isSome then
                ({ success := true, repairStrategy := "backup_restore"
                   message := "Restored from backup", originalError := none },
                 { fs with main := some b })
              else partialThenEmergency r fs now stem
          | none => partialThenEmergency r fs now stem

end AAVRepairer

/-! ## Association-list lemmas -/

theorem getA_setA_self {α : Type} (l : List (String × α)) (k : String) (v : α) :
    getA (setA l k v) k = some v := by
  induction l with
  | nil => simp [setA, getA]
  | cons kv rest ih =>
      obtain ⟨k', v'⟩ := kv
      by_cases h : k' = k
      · simp [setA, getA, h]
      · simp [setA, getA, h, ih]

/-! ## Claims -/

theorem sigCpuPercent (th : ChangeThreshold) (p v : Rat) :
    ChangeDetector.isSignificantChange th "cpu_percent" (.num p) (.num v) =
      some (decide (|v - p| ≥ th.cpu_percent)) := by
  unfold ChangeDetector.isSignificantChange
  rw [if_neg (by simp), if_pos (by decide)]
  rfl

theorem defaultThresholdCpu : ({} : ChangeThreshold).cpu_percent = 5 := by
  norm_num [ChangeThreshold.cpu_percent]

/-- C6: for `cpu_percent` under default thresholds with `force=false`, the
first call returns true; within the 300-second window a call with absolute
delta `< 5` from the last recorded value returns false without re-recording;
a call with absolute delta `≥ 5` returns true; and any call at least 300
seconds after the metric's last recorded update returns true even with zero
delta. -/
theorem c6_cpu_percent_rules (st : DetectorState) (p t0 now v : Rat)
    (hth : st.thresholds = {})
    (hprev : getA st.previous_values "cpu_percent" = some (.num p))
    (htime : getA st.last_update_time "cpu_percent" = some t0) :
    (∀ (t1 v1 : Rat),
      ChangeDetector.shouldUpdate {} t1 "cpu_percent" (.num v1) false =
        some (true, ChangeDetector.recordValue {} t1 "cpu_percent" (.num v1))) ∧
    (|v - p| < 5 → now - t0 < 300 →
      ChangeDetector.shouldUpdate st now "cpu_percent" (.num v) false =
        some (false, st)) ∧
    (|v - p| ≥ 5 →
      ChangeDetector.shouldUpdate st now "cpu_percent" (.num v) false =
        some (true, ChangeDetector.recordValue st now "cpu_percent" (.num v))) ∧
    (now - t0 ≥ 300 →
      ChangeDetector.shouldUpdate st now "cpu_percent" (.num v) false =
        some (true, ChangeDetector.recordValue st now "cpu_percent" (.num v))) := by
  have hsig := sigCpuPercent ({} : ChangeThreshold) p v
  refine ⟨?_, ?_, ?_, ?_⟩
  · intro t1 v1
    simp [ChangeDetector.shouldUpdate, getA]
  · intro h1 h2
    have hd : decide (|v - p| ≥ ({} : ChangeThreshold).cpu_percent) = false := by
      rw [defaultThresholdCpu]
      exact decide_eq_false (not_le.mpr h1)
    simp [ChangeDetector.shouldUpdate, hprev, hth, hsig, hd,
      ChangeDetector.shouldUpdateByTime, htime, not_le.mpr h2]
  · intro h1
    have hd : decide (|v - p| ≥ ({} : ChangeThreshold).cpu_percent) = true := by
      rw [defaultThresholdCpu]
      exact decide_eq_true h1
    simp [ChangeDetector.shouldUpdate, hprev, hth, hsig, hd]
  · intro h2
    by_cases hsb : |v - p| ≥ ({} : ChangeThreshold).cpu_percent
    · simp [ChangeDetector.shouldUpdate, hprev, hth, hsig, decide_eq_true hsb]
    · simp [ChangeDetector.shouldUpdate, hprev, hth, hsig,
        decide_eq_false hsb, ChangeDetector.shouldUpdateByTime, htime, h2]

theorem checkFreshnessPreserves (ageOf : Value → Option Rat) (maxAge : Rat)
    (d : Doc) (r : ValidationResult) :
    (AAVValidator.checkFreshness ageOf maxAge d r).valid = r.valid ∧
    (AAVValidator.checkFreshness ageOf maxAge d r).errors = r.errors := by
  unfold AAVValidator.checkFreshness
  split
  · exact ⟨rfl, rfl⟩
  · split
    · exact ⟨rfl, rfl⟩
    · split
      · exact ⟨rfl, rfl⟩
      · split <;> exact ⟨rfl, rfl⟩

theorem checkSensorSectionsFromPreserves (d : Doc) (l : List String)
    (r : ValidationResult) :
    (AAVValidator.checkSensorSectionsFrom d l r).valid = r.valid ∧
    (AAVValidator.checkSensorSectionsFrom d l r).errors = r.errors := by
  induction l generalizing r with
  | nil => exact ⟨rfl, rfl⟩
  | cons s rest ih =>
      unfold AAVValidator.checkSensorSectionsFrom
      split
      · exact ih r
      · dsimp only
        refine ⟨?_, ?_⟩
        · rw [(ih _).1]
          split <;> split <;> rfl
        · rw [(ih _).2]
          split <;> split <;> rfl

theorem checkSensorHealthFromPreserves (d : Doc) (l : List String)
    (r : ValidationResult) :
    (AAVValidator.checkSensorHealthFrom d l r).valid = r.valid ∧
    (AAVValidator.checkSensorHealthFrom d l r).errors = r.errors := by
  induction l generalizing r with
  | nil => exact ⟨rfl, rfl⟩
  | cons s rest ih =>
      unfold AAVValidator.checkSensorHealthFrom
      split
      · exact ih r
      · split
        · exact ih r
        · dsimp only
          refine ⟨?_, ?_⟩
          · rw [(ih _).1]
            split
            · rfl
            · split
              · rfl
              · split <;> rfl
          · rw [(ih _).2]
            split
            · rfl
            · split
              · rfl
              · split <;> rfl

theorem validateDocValid (ageOf : Value → Option Rat) (maxAge : Rat) (d : Doc)
    (res : ValidationResult)
    (h : AAVValidator.validateDoc ageOf maxAge d = some res) :
    ∃ r5, AAVValidator.checkMetadata d
        (AAVValidator.checkRequiredSections d ValidationResult.init) = some r5 ∧
      res.valid = (AAVValidator.checkAssetInfo d r5).valid ∧
      res.errors = (AAVValidator.checkAssetInfo d r5).errors := by
  unfold AAVValidator.validateDoc at h
  dsimp only at h
  rcases hc : AAVValidator.checkMetadata d
      (AAVValidator.checkRequiredSections d ValidationResult.init) with _ | r5
  · rw [hc] at h
    simp at h
  · rw [hc] at h
    simp at h
    refine ⟨r5, rfl, ?_, ?_⟩ <;>
    · rw [← h]
      rcases checkSensorHealthFromPreserves d AAVValidator.sensorSections
        (AAVValidator.checkSensorSectionsFrom d AAVValidator.sensorSections
          (AAVValidator.checkFreshness ageOf maxAge d
            (AAVValidator.checkAssetInfo d r5))) with ⟨h1, h2⟩
      rcases checkSensorSectionsFromPreserves d AAVValidator.sensorSections
        (AAVValidator.checkFreshness ageOf maxAge d
          (AAVValidator.checkAssetInfo d r5)) with ⟨h3, h4⟩
      rcases checkFreshnessPreserves ageOf maxAge d
        (AAVValidator.checkAssetInfo d r5) with ⟨h5, h6⟩
      simp [AAVValidator.checkSensorHealth, AAVValidator.checkSensorSections,
        h1, h2, h3, h4, h5, h6]

/-- Record document with all seven sections and well-formed metadata whose
`asset` table lacks the required `status` field. -/
def docAssetNoStatus : Doc :=
  [("metadata",
    [("format_version", .str "2.0.0"), ("asset_id", .str "x"),
     ("last_updated", .str "T0")]),
   ("asset", [("id", .str "x"), ("type", .str "container")]),
   ("compute", [("last_updated", .str "T0"), ("sensor_status", .str "healthy")]),
   ("memory", [("last_updated", .str "T0"), ("sensor_status", .str "healthy")]),
   ("storage", [("last_updated", .str "T0"), ("sensor_status", .str "healthy")]),
   ("network", [("last_updated", .str "T0"), ("sensor_status", .str "healthy")]),
   ("services", [("last_updated", .str "T0"), ("sensor_status", .str "healthy")])]

/-- C5 counterexample: on a file whose first four check categories all pass
(every section present, metadata shape fine), the fifth check — asset
shape — sets `valid=false` when `status` is missing from the `asset` table,
so a check after the first four does change `valid`. -/
theorem c5_counterexample :
    AAVValidator.validateDoc (fun _ => some 0) 300 docAssetNoStatus =
      some { valid := false, errors := ["Missing asset fields: status"],
             warnings := [] } ∧
    AAVFile.missingSections docAssetNoStatus = [] ∧
    AAVValidator.checkMetadata docAssetNoStatus
        (AAVValidator.checkRequiredSections docAssetNoStatus
          ValidationResult.init) =
      some ValidationResult.init :=
  ⟨rfl, rfl, rfl⟩

/-- C5 (amended): only the first five check categories — existence,
syntax, required sections, metadata shape, and asset shape — can set
`valid=false` or append errors; the later checks (freshness, per-section
fields, sensor health) only append warnings: for every parsed document the
final `valid` flag and error list equal those produced right after the
asset-shape check, for every clock and freshness limit. -/
theorem c5_only_early_checks_invalidate (ageOf : Value → Option Rat)
    (maxAge : Rat) (d : Doc) (res : ValidationResult)
    (h : AAVValidator.validateDoc ageOf maxAge d = some res) :
    ∃ r5, AAVValidator.checkMetadata d
        (AAVValidator.checkRequiredSections d ValidationResult.init) = some r5 ∧
      res.valid = (AAVValidator.checkAssetInfo d r5).valid ∧
      res.errors = (AAVValidator.checkAssetInfo d r5).errors :=
  validateDocValid ageOf maxAge d res h

/-- Witness for C5 on the skeleton record document. -/
theorem c5_only_early_checks_invalidate_witness :
    ∃ r5, AAVValidator.checkMetadata
        (AAVFile.createEmptyDoc "x" "container" none "T0")
        (AAVValidator.checkRequiredSections
          (AAVFile.createEmptyDoc "x" "container" none "T0")
          ValidationResult.init) = some r5 ∧
      ValidationResult.valid
        { valid := true, errors := [], warnings := ["Could not validate freshness"] } =
        (AAVValidator.checkAssetInfo
          (AAVFile.createEmptyDoc "x" "container" none "T0") r5).valid ∧
      ValidationResult.errors
        { valid := true, errors := [], warnings := ["Could not validate freshness"] } =
        (AAVValidator.checkAssetInfo
          (AAVFile.createEmptyDoc "x" "container" none "T0") r5).errors :=
  c5_only_early_checks_invalidate (fun _ => none) 300
    (AAVFile.createEmptyDoc "x" "container" none "T0") _ rfl

theorem validateCreateEmpty (aid ty : String) (nm : Option String)
    (now : String) :
    AAVFile.validate (AAVFile.createEmptyDoc aid ty nm now) = .ok () := rfl

theorem writeNoBackupOk (fs : AAVFile.FS) (now : String) (data : Doc)
    (h : AAVFile.validate data = .ok ()) :
    AAVFile.write fs now data false =
      (.ok (), { main := some (AAVFile.RawContent.ofDoc
          (AAVFile.stampMetadata data now)), backup := fs.backup }) := by
  unfold AAVFile.write
  rw [h]
  dsimp only
  rw [if_neg (by simp)]

theorem checkAssetInfoSkeleton (aid ty : String) (nm : Option String)
    (now now' : String) (r : ValidationResult) :
    (AAVValidator.checkAssetInfo
        (AAVFile.stampMetadata (AAVFile.createEmptyDoc aid ty nm now) now') r).valid
      = r.valid ∧
    (AAVValidator.checkAssetInfo
        (AAVFile.stampMetadata (AAVFile.createEmptyDoc aid ty nm now) now') r).errors
      = r.errors := by
  by_cases hty : (Value.str ty) ∈
      ([.str "container", .str "vm", .str "pod", .str "machine",
        .str "database", .str "service"] : List Value) <;>
    constructor <;>
      simp [AAVValidator.checkAssetInfo, AAVFile.stampMetadata,
        AAVFile.createEmptyDoc, getA, hasA, setA, hty,
        ValidationResult.addWarning]

theorem validateDocStampedSkeleton (ageOf : Value → Option Rat) (maxAge : Rat)
    (aid ty : String) (nm : Option String) (now now' : String) :
    ∃ res, AAVValidator.validateDoc ageOf maxAge
        (AAVFile.stampMetadata (AAVFile.createEmptyDoc aid ty nm now) now') =
          some res ∧
      res.valid = true ∧ res.errors = [] := by
  refine ⟨_, rfl, ?_, ?_⟩
  · simp only [AAVValidator.checkSensorHealth, AAVValidator.checkSensorSections]
    rw [(checkSensorHealthFromPreserves _ _ _).1,
      (checkSensorSectionsFromPreserves _ _ _).1,
      (checkFreshnessPreserves _ _ _ _).1,
      (checkAssetInfoSkeleton aid ty nm now now' _).1]
    rfl
  · simp only [AAVValidator.checkSensorHealth, AAVValidator.checkSensorSections]
    rw [(checkSensorHealthFromPreserves _ _ _).2,
      (checkSensorSectionsFromPreserves _ _ _).2,
      (checkFreshnessPreserves _ _ _ _).2,
      (checkAssetInfoSkeleton aid ty nm now now' _).2]
    rfl

/-- Corrupted raw content: it does not parse, the textual fixes do not make
it parse, and neither `asset_id` nor `type` can be extracted. -/
def rawGarbage : AAVFile.RawContent :=
  { parse := none, parseFixed := none, rawAssetId := none, rawType := none }

/-- File-system state with a corrupted primary file and no backup. -/
def fsCorrupted : AAVFile.FS :=
  { main := some rawGarbage, backup := none }

/-- C1 counterexample: on an arbitrarily corrupted file with no backup,
`repair` succeeds via the partial-recovery strategy — not the
emergency-rebuild strategy the claim names — and the repaired file passes
validation. -/
theorem c1_counterexample :
    (AAVRepairer.repair fsCorrupted "T" "asset-7").1.success = true ∧
    (AAVRepairer.repair fsCorrupted "T" "asset-7").1.repairStrategy =
      "partial_recovery" ∧
    (AAVRepairer.repair fsCorrupted "T" "asset-7").1.repairStrategy ≠
      "emergency_rebuild" ∧
    (AAVValidator.validateFile (AAVRepairer.repair fsCorrupted "T" "asset-7").2.main
        (fun _ => none) 300).map ValidationResult.valid = some true :=
  ⟨rfl, rfl, by decide, rfl⟩

/-- C1 (amended): for every existing corrupted file whose content stays
unparseable even after the textual syntax fixes, with no backup present and
a writable path, `repair` returns `success=true` via the partial-recovery
strategy (emergency rebuild is reached only if partial recovery itself
fails), and the resulting file passes validation with no errors. -/
theorem c1_repair_total_passes_validation (r : AAVFile.RawContent)
    (now stem : String) (ageOf : Value → Option Rat) (maxAge : Rat)
    (hfix : r.parseFixed = none) :
    (AAVRepairer.repair ⟨some r, none⟩ now stem).1.success = true ∧
    (AAVRepairer.repair ⟨some r, none⟩ now stem).1.repairStrategy =
      "partial_recovery" ∧
    ∃ res, AAVValidator.validateFile
        (AAVRepairer.repair ⟨some r, none⟩ now stem).2.main ageOf maxAge =
          some res ∧
      res.valid = true ∧ res.errors = [] := by
  have hrep : AAVRepairer.repair ⟨some r, none⟩ now stem =
      ({ success := true, repairStrategy := "partial_recovery"
         message := "Recovered partial data (asset_id: " ++
           r.rawAssetId.getD "unknown" ++ ")"
         originalError := none },
       { main := some (AAVFile.RawContent.ofDoc (AAVFile.stampMetadata
           (AAVFile.createEmptyDoc (r.rawAssetId.getD "unknown")
             (r.rawType.getD "unknown") none now) now))
         backup := none }) := by
    unfold AAVRepairer.repair
    dsimp only
    rw [hfix]
    unfold AAVRepairer.partialThenEmergency AAVFile.createEmpty
    dsimp only
    rw [writeNoBackupOk _ _ _ (validateCreateEmpty _ _ _ _)]
  rw [hrep]
  refine ⟨rfl, rfl, ?_⟩
  obtain ⟨res, hres, hv, he⟩ := validateDocStampedSkeleton ageOf maxAge
    (r.rawAssetId.getD "unknown") (r.rawType.getD "unknown") none now now
  exact ⟨res, hres, hv, he⟩

/-- Witness for C1 on the concrete corrupted file. -/
theorem c1_repair_total_passes_validation_witness :
    rawGarbage.parseFixed = none ∧
    (AAVRepairer.repair ⟨some rawGarbage, none⟩ "T" "asset-7").1.success = true :=
  ⟨rfl, (c1_repair_total_passes_validation rawGarbage "T" "asset-7"
    (fun _ => none) 300 rfl).1⟩

theorem writeMissingSections (fs : AAVFile.FS) (now : String) (data : Doc)
    (createBackup : Bool) (h : AAVFile.missingSections data ≠ []) :
    AAVFile.write fs now data createBackup =
      (.error (.fileError ("Failed to write: Missing required sections: " ++
        String.intercalate ", " (AAVFile.missingSections data))), fs) := by
  unfold AAVFile.write AAVFile.validate
  rw [if_pos h]
  rfl

/-- True exactly when an operation outcome is a raised `AAVFileError`. -/
def raisedFileError (o : Except AuraErr Unit × AAVFile.FS) : Bool :=
  match o.1 with
  | .error e => e.isFileError
  | .ok _ => false

/-- True exactly when an operation outcome is a raised `AAVValidationError`. -/
def raisedValidationError (o : Except AuraErr Unit × AAVFile.FS) : Bool :=
  match o.1 with
  | .error e => e.isValidationError
  | .ok _ => false

/-- File-system state holding one valid skeleton record and no backup. -/
def fsSkeleton : AAVFile.FS :=
  { main := some (AAVFile.RawContent.ofDoc
      (AAVFile.createEmptyDoc "container-api" "container" none "T0"))
    backup := none }

/-- C3 counterexample: writing a record with every required section missing
surfaces as `AAVFileError` — the pre-flight `AAVValidationError` is caught
by `write`'s `except` clause and re-raised as the generic file error — while
the on-disk file and backup stay unchanged. -/
theorem c3_counterexample :
    raisedFileError (AAVFile.write fsSkeleton "T1" [] true) = true ∧
    raisedValidationError (AAVFile.write fsSkeleton "T1" [] true) = false ∧
    (AAVFile.write fsSkeleton "T1" [] true).2 = fsSkeleton :=
  ⟨rfl, rfl, rfl⟩

/-- C3 (amended): for every record missing at least one required section,
`write` fails with `AAVFileError` wrapping the pre-flight validation
message (the `AAVValidationError` does not escape `write`), and the
file-system state is unchanged: validation runs before the backup copy, the
timestamp rewrite and the temp-file write. -/
theorem c3_write_preflight (fs : AAVFile.FS) (now : String) (data : Doc)
    (h : AAVFile.missingSections data ≠ []) :
    AAVFile.write fs now data true =
      (.error (.fileError ("Failed to write: Missing required sections: " ++
        String.intercalate ", " (AAVFile.missingSections data))), fs) :=
  writeMissingSections fs now data true h

/-- Witness for C3: writing the empty record over the skeleton file. -/
theorem c3_write_preflight_witness :
    AAVFile.missingSections [] ≠ [] ∧
    AAVFile.write fsSkeleton "T1" [] true =
      (.error (.fileError ("Failed to write: Missing required sections: " ++
        String.intercalate ", " (AAVFile.missingSections []))), fsSkeleton) :=
  ⟨by decide, c3_write_preflight fsSkeleton "T1" [] (by decide)⟩

theorem mergeSectionEmpty (sec : String) (patch : Section) :
    AAVFile.mergeSection [] sec patch =
      [(sec, patch.foldl (fun acc kv => setA acc kv.1 kv.2) [])] := by
  simp [AAVFile.mergeSection, hasA, getA, setA]

theorem missingSectionsSingle (sec : String) (x : Section) :
    AAVFile.missingSections [(sec, x)] ≠ [] := by
  intro hnil
  by_cases hsec : sec = "metadata"
  · have : "asset" ∈ AAVFile.missingSections [(sec, x)] := by
      subst hsec
      simp [AAVFile.missingSections, AAVFile.REQUIRED_SECTIONS, hasA, getA]
    rw [hnil] at this
    exact absurd this (List.not_mem_nil _)
  · have : "metadata" ∈ AAVFile.missingSections [(sec, x)] := by
      simp [AAVFile.missingSections, AAVFile.REQUIRED_SECTIONS, hasA, getA, hsec]
    rw [hnil] at this
    exact absurd this (List.not_mem_nil _)

/-- C10: with the record file absent, `update_section` always fails with
`AAVFileError` — the merged document holds only the single patched section,
so `write`'s pre-flight validation rejects it for every section name and
every patch — and no file is created. -/
theorem c10_update_section_absent_file (fs : AAVFile.FS) (now sec : String)
    (patch : Section) (h : fs.main = none) :
    ∃ m, AAVFile.updateSection fs now sec patch =
      (.error (.fileError m), fs) := by
  have hmerge := mergeSectionEmpty sec patch
  have hmiss : AAVFile.missingSections (AAVFile.mergeSection [] sec patch) ≠ [] := by
    rw [hmerge]
    exact missingSectionsSingle sec _
  have hw := writeMissingSections fs now (AAVFile.mergeSection [] sec patch) true hmiss
  have hres : AAVFile.updateSection fs now sec patch =
      (.error (.fileError ("Failed to update section " ++ sec ++ ": " ++
        ("Failed to write: Missing required sections: " ++
          String.intercalate ", "
            (AAVFile.missingSections (AAVFile.mergeSection [] sec patch))))), fs) := by
    unfold AAVFile.updateSection
    rw [h]
    simp only [Option.isSome, Bool.false_eq_true, if_false]
    rw [hw]
    rfl
  exact ⟨_, hres⟩

/-- Witness for C10: patching `compute` into an absent file. -/
theorem c10_update_section_absent_file_witness :
    (AAVFile.FS.mk none none).main = none ∧
    ∃ m, AAVFile.updateSection (AAVFile.FS.mk none none) "T" "compute"
        [("cpu_percent", .num 5)] =
      (.error (.fileError m), AAVFile.FS.mk none none) :=
  ⟨rfl, c10_update_section_absent_file (AAVFile.FS.mk none none) "T" "compute"
    [("cpu_percent", .num 5)] rfl⟩

/-- C7 counterexample: a forced call returns true yet records nothing —
`should_update` returns before `_record_value` when `force=true`, so on a
fresh detector the metric is still absent from the previous values, the
last-update times and the history after the call. -/
theorem c7_counterexample :
    ChangeDetector.shouldUpdate {} 0 "cpu_percent" (.num 1) true =
      some (true, {}) ∧
    getA ({} : DetectorState).previous_values "cpu_percent" = none ∧
    getA ({} : DetectorState).last_update_time "cpu_percent" = none ∧
    getA ({} : DetectorState).history "cpu_percent" = none :=
  ⟨rfl, rfl, rfl, rfl⟩

/-- C7 (amended): every `should_update` call with `force=false` that returns
true records the value and timestamp as the metric's new previous value and
last-update time, and for numeric values appends to the bounded history; a
call with `force=true` returns true without recording. -/
theorem c7_true_records (st : DetectorState) (now : Rat) (name : String)
    (v : Value) (st' : DetectorState)
    (h : ChangeDetector.shouldUpdate st now name v false = some (true, st')) :
    st' = ChangeDetector.recordValue st now name v ∧
    getA st'.previous_values name = some v ∧
    getA st'.last_update_time name = some now ∧
    (∀ q : Rat, v = .num q →
      getA st'.history name =
        some (((getA st.history name).getD {}).add q now)) := by
  have hrec : st' = ChangeDetector.recordValue st now name v := by
    unfold ChangeDetector.shouldUpdate at h
    simp only [Bool.false_eq_true, if_false] at h
    rcases heq : getA st.previous_values name with _ | prev
    · rw [heq] at h
      simpa using h.symm
    · rw [heq] at h
      dsimp only at h
      rcases hsig : ChangeDetector.isSignificantChange st.thresholds name prev v
        with _ | sig
      · rw [hsig] at h
        simp at h
      · rw [hsig] at h
        dsimp only at h
        cases sig with
        | true => simpa using h.symm
        | false =>
            by_cases ht : ChangeDetector.shouldUpdateByTime st now name 300
            · simp [ht] at h
              exact h.symm
            · simp [ht] at h
  subst hrec
  refine ⟨rfl, ?_, ?_, ?_⟩
  · unfold ChangeDetector.recordValue
    cases v <;> simp [Value.toNum, getA_setA_self]
  · unfold ChangeDetector.recordValue
    cases v <;> simp [Value.toNum, getA_setA_self]
  · intro q hq
    subst hq
    unfold ChangeDetector.recordValue
    simp [Value.toNum, getA_setA_self]

/-- Witness for C7: an unforced first call on a fresh detector. -/
theorem c7_true_records_witness :
    ChangeDetector.shouldUpdate {} 0 "m" (.num 1) false =
      some (true, ChangeDetector.recordValue {} 0 "m" (.num 1)) ∧
    getA (ChangeDetector.recordValue {} 0 "m" (.num 1)).previous_values "m" =
      some (.num 1) :=
  ⟨rfl, (c7_true_records {} 0 "m" (.num 1) _ rfl).2.1⟩

/-- Detector state holding a recorded `cpu_percent` of 45 at time 0. -/
def detectorStateEx : DetectorState :=
  ChangeDetector.recordValue {} 0 "cpu_percent" (.num 45)

/-- Witness for C6 at the recorded value 45, delta 4.9 at time 10. -/
theorem c6_cpu_percent_rules_witness :
    (detectorStateEx.thresholds = {} ∧
      getA detectorStateEx.previous_values "cpu_percent" = some (.num 45) ∧
      getA detectorStateEx.last_update_time "cpu_percent" = some 0) ∧
    (|(499 / 10 : Rat) - 45| < 5 → (10 : Rat) - 0 < 300 →
      ChangeDetector.shouldUpdate detectorStateEx 10 "cpu_percent"
        (.num (499 / 10)) false = some (false, detectorStateEx)) ∧
    (|(499 / 10 : Rat) - 45| < 5 ∧ (10 : Rat) - 0 < 300) :=
  ⟨⟨rfl, rfl, rfl⟩,
   (c6_cpu_percent_rules detectorStateEx 45 0 10 (499 / 10) rfl rfl rfl).2.1,
   by norm_num [abs_lt]⟩

/-- C2: for every fixed `totalShards ≥ 1` and every asset id, exactly one
shard id in `[0, totalShards)` satisfies `should_monitor`; hence, over any
list of asset ids, an id belongs to some shard's `discover_my_assets`
selection iff it is in the list, and the selections of two distinct shards
are disjoint. -/
theorem c2_sharding_partitions (hash : String → Nat) (totalShards : Nat)
    (htot : 1 ≤ totalShards) :
    (∀ assetId : String, ∃! s : Nat, s < totalShards ∧
        DistributedGuardian.shouldMonitor hash totalShards s assetId = true) ∧
    (∀ (assetIds : List String) (assetId : String),
        assetId ∈ assetIds ↔ ∃ s, s < totalShards ∧
          assetId ∈ DistributedGuardian.discoverMyAssets hash totalShards s assetIds) ∧
    (∀ (assetIds : List String) (s t : Nat), s ≠ t → ∀ assetId,
        assetId ∈ DistributedGuardian.discoverMyAssets hash totalShards s assetIds →
        assetId ∉ DistributedGuardian.discoverMyAssets hash totalShards t assetIds) := by
  have hmem : ∀ (ids : List String) (s : Nat) (x : String),
      x ∈ DistributedGuardian.discoverMyAssets hash totalShards s ids ↔
        x ∈ ids ∧ hash x % totalShards = s := by
    intro ids s x
    simp [DistributedGuardian.discoverMyAssets, DistributedGuardian.shouldMonitor,
      List.mem_filter]
  refine ⟨?_, ?_, ?_⟩
  · intro assetId
    refine ⟨hash assetId % totalShards,
      ⟨Nat.mod_lt _ (Nat.lt_of_lt_of_le Nat.zero_lt_one htot), by
        simp [DistributedGuardian.shouldMonitor]⟩, ?_⟩
    intro t ht
    have := ht.2
    simp [DistributedGuardian.shouldMonitor] at this
    omega
  · intro assetIds assetId
    constructor
    · intro hx
      exact ⟨hash assetId % totalShards,
        Nat.mod_lt _ (Nat.lt_of_lt_of_le Nat.zero_lt_one htot),
        (hmem assetIds _ assetId).2 ⟨hx, rfl⟩⟩
    · rintro ⟨s, _, hx⟩
      exact ((hmem assetIds s assetId).1 hx).1
  · intro assetIds s t hst assetId hs ht
    have h1 := ((hmem assetIds s assetId).1 hs).2
    have h2 := ((hmem assetIds t assetId).1 ht).2
    exact hst (h1 ▸ h2)

/-- Witness for C2 at `totalShards = 3` with the length hash. -/
theorem c2_sharding_partitions_witness :
    1 ≤ 3 ∧ (∃! s : Nat, s < 3 ∧
      DistributedGuardian.shouldMonitor (fun a => a.length) 3 s "container-api" = true) :=
  ⟨by decide,
   (c2_sharding_partitions (fun a => a.length) 3 (by decide)).1 "container-api"⟩

/-- C4: the shard status classification in `get_health` tests
`repair_failures > 10` before `repair_failures > 50`, so the `"unhealthy"`
branch is unreachable: at 51 cumulative repair failures the code reports
`"degraded"`, and no failure count ever yields `"unhealthy"`. -/
theorem c4_health_unreachable_unhealthy :
    DistributedGuardian.healthStatus 51 = "degraded" ∧
    ∀ n : Nat, DistributedGuardian.healthStatus n ≠ "unhealthy" := by
  refine ⟨rfl, ?_⟩
  intro n
  unfold DistributedGuardian.healthStatus
  by_cases h : n > 10
  · simp [h]
  · have h50 : ¬ n > 50 := by omega
    simp [h, h50]

/-- C8: after `_on_failure` with the default `max_failures = 5`, the status
is DEGRADED when the consecutive-failure count has reached 3 (or 4) and
UNHEALTHY when it has reached 5 or more; after `_on_success` the count is 0
and a DEGRADED sensor is HEALTHY again. -/
theorem c8_status_escalation (s : SensorState) (hmax : s.max_failures = 5) :
    ((BaseSensor.onFailure s).consecutive_failures = 3 ∨
      (BaseSensor.onFailure s).consecutive_failures = 4 →
      (BaseSensor.onFailure s).status = .degraded) ∧
    ((BaseSensor.onFailure s).consecutive_failures ≥ 5 →
      (BaseSensor.onFailure s).status = .unhealthy) ∧
    (BaseSensor.onSuccess s).consecutive_failures = 0 ∧
    (s.status = .degraded → (BaseSensor.onSuccess s).status = .healthy) := by
  refine ⟨?_, ?_, rfl, ?_⟩
  · intro h
    have hf : s.consecutive_failures + 1 = 3 ∨ s.consecutive_failures + 1 = 4 := by
      simpa [BaseSensor.onFailure] using h
    have h5 : ¬ s.consecutive_failures + 1 ≥ s.max_failures := by omega
    have h3 : s.consecutive_failures + 1 ≥ 3 := by omega
    simp [BaseSensor.onFailure, h5, h3]
  · intro h
    have hf : s.consecutive_failures + 1 ≥ 5 := by
      simpa [BaseSensor.onFailure] using h
    have h5 : s.consecutive_failures + 1 ≥ s.max_failures := by omega
    simp [BaseSensor.onFailure, h5]
  · intro h
    simp [BaseSensor.onSuccess, h]

/-- Example sensor state with two prior consecutive failures. -/
def sensorStateEx : SensorState :=
  { sampling_interval := 1, status := .healthy, consecutive_failures := 2 }

/-- Witness for C8 at a concrete sensor state with 2 prior failures. -/
theorem c8_status_escalation_witness :
    sensorStateEx.max_failures = 5 ∧
    ((BaseSensor.onFailure sensorStateEx).consecutive_failures = 3 ∨
      (BaseSensor.onFailure sensorStateEx).consecutive_failures = 4 →
      (BaseSensor.onFailure sensorStateEx).status = .degraded) :=
  ⟨rfl, (c8_status_escalation sensorStateEx rfl).1⟩

/-- C9: with the constructor's bounds `min_interval = 0.1` and
`max_interval = 5.0`, a sampling interval within `[0.1, 5.0]` stays within
`[0.1, 5.0]` after `_on_success` as well as after `_on_failure`. -/
theorem c9_interval_invariant (s : SensorState)
    (hmin : s.min_interval = 0.1) (hmax : s.max_interval = 5.0)
    (hlo : 0.1 ≤ s.sampling_interval) (hhi : s.sampling_interval ≤ 5.0) :
    (0.1 ≤ (BaseSensor.onSuccess s).sampling_interval ∧
      (BaseSensor.onSuccess s).sampling_interval ≤ 5.0) ∧
    (0.1 ≤ (BaseSensor.onFailure s).sampling_interval ∧
      (BaseSensor.onFailure s).sampling_interval ≤ 5.0) := by
  have hnn : (0 : Rat) ≤ s.sampling_interval := le_trans (by norm_num) hlo
  refine ⟨⟨?_, ?_⟩, ?_, ?_⟩
  · simp only [BaseSensor.onSuccess, hmin]
    exact le_max_left _ _
  · simp only [BaseSensor.onSuccess, hmin]
    refine max_le (by norm_num) ?_
    calc s.sampling_interval * 0.95 ≤ s.sampling_interval * 1 := by
          exact mul_le_mul_of_nonneg_left (by norm_num) hnn
      _ = s.sampling_interval := mul_one _
      _ ≤ 5.0 := hhi
  · simp only [BaseSensor.onFailure, hmax]
    refine le_min (by norm_num) ?_
    have hb : (1 : Rat) ≤ 1.5 ^ (min (s.consecutive_failures + 1) 5) :=
      one_le_pow₀ (by norm_num)
    calc (0.1 : Rat) ≤ s.sampling_interval := hlo
      _ = s.sampling_interval * 1 := (mul_one _).symm
      _ ≤ s.sampling_interval * 1.5 ^ (min (s.consecutive_failures + 1) 5) :=
          mul_le_mul_of_nonneg_left hb hnn
  · simp only [BaseSensor.onFailure, hmax]
    exact min_le_left _ _

/-- Sensor state at the constructor's default interval 0.5. -/
def sensorStateDefault : SensorState :=
  { sampling_interval := 0.5 }

/-- Witness for C9 at the constructor's default interval 0.5. -/
theorem c9_interval_invariant_witness :
    (sensorStateDefault.min_interval = 0.1 ∧
      sensorStateDefault.max_interval = 5.0 ∧
      (0.1 : Rat) ≤ sensorStateDefault.sampling_interval ∧
      sensorStateDefault.sampling_interval ≤ 5.0) ∧
    (0.1 ≤ (BaseSensor.onSuccess sensorStateDefault).sampling_interval ∧
      (BaseSensor.onSuccess sensorStateDefault).sampling_interval ≤ 5.0) :=
  ⟨⟨rfl, rfl, by norm_num [sensorStateDefault], by norm_num [sensorStateDefault]⟩,
   (c9_interval_invariant sensorStateDefault rfl rfl
     (by norm_num [sensorStateDefault]) (by norm_num [sensorStateDefault])).1⟩

end Aura
